import Mathlib

/-!
Shallow embedding of `src/assets/domain/material.go` (tania-core, assets domain):
the Material aggregate, its Money / MaterialQuantity value objects, the allowed
quantity-unit lookup table, the event types and the event-sourcing fold
(`Transition`) together with the commands (`CreateMaterial`, `ChangeName`,
`ChangePricePerUnit`, `ChangeQuantityUnit`).

Modelling conventions:
- Go `float32` quantities are modelled as `ℚ` (only sign comparisons occur).
- Go `uuid.UUID` is modelled as `Nat`; `CreateMaterial` takes the freshly
  generated identifier as an explicit argument (the success path of
  `uuid.NewV4`).
- Go `*T` (nullable pointer) fields are modelled as `Option`.
- Go `errors.New` messages are kept verbatim as `String`s, so distinct error
  kinds stay distinguishable.
- Pointer-receiver command methods returning `error` are modelled as functions
  `Material → args → Material × Option String`: the returned `Material` is the
  receiver's state after the call and the `Option String` is the returned
  error (`none` = nil).
-/

namespace Tania

/-- From `MaterialQuantityUnit` in material.go: a `{code, label}` pair. -/
structure MaterialQuantityUnit where
  code : String
  label : String
deriving DecidableEq, Repr

/-- From `MaterialQuantity` in material.go: value (float32, modelled as ℚ) plus unit. -/
structure MaterialQuantity where
  value : ℚ
  unit : MaterialQuantityUnit
deriving DecidableEq, Repr

/-- From the `Money` interface and its sole constructible variant `EUR` in
material.go: `CreateMoney` only ever builds an `EUR` value, so `Money` is the
one-variant sum carrying the textual amount. -/
inductive Money where
  | eur (amount : String)
deriving DecidableEq, Repr

/-- `EUR.Code()` in material.go returns the constant `MoneyEUR = "EUR"`. -/
def Money.code : Money → String
  | .eur _ => "EUR"

/-- `EUR.Symbol()` in material.go. -/
def Money.symbol : Money → String
  | .eur _ => "€"

/-- `EUR.Amount()` in material.go. -/
def Money.amount : Money → String
  | .eur a => a

/-- From `CreateMoney` in material.go: empty price is rejected first, then the
currency code is switched on; only `"EUR"` (i.e. `EUR{}.Code()`) is known. -/
def CreateMoney (price priceUnit : String) : Except String Money :=
  if price = "" then .error "price cannot be empty"
  else if priceUnit = "EUR" then .ok (Money.eur price)
  else .error "money not found"

/-- Modelled from the spec: the concrete `MaterialType` variants (seed,
agrochemical, growing medium, label/crop support, seeding container,
post-harvest supply, plant, other) are declared outside `material.go` (which
only consumes the `Code()` capability); the spec fixes the variant set in §3
and the seed variant's code `"SEED"` in its §8 examples. -/
inductive MaterialType where
  | seed
  | agrochemical
  | growingMedium
  | labelAndCropSupport
  | seedingContainer
  | postHarvestSupply
  | plant
  | other
deriving DecidableEq, Repr

/-- Modelled from the spec: the `MaterialType*Code` string constants referenced
by `MaterialQuantityUnits` live outside `material.go`; the spec's §8 example
`ResolveUnit("SEED", "GRAM")` fixes the seed code, and the remaining codes
follow the same SCREAMING_SNAKE pattern used by the unit constants in
material.go. -/
def MaterialType.code : MaterialType → String
  | .seed => "SEED"
  | .agrochemical => "AGROCHEMICAL"
  | .growingMedium => "GROWING_MEDIUM"
  | .labelAndCropSupport => "LABEL_AND_CROP_SUPPORT"
  | .seedingContainer => "SEEDING_CONTAINER"
  | .postHarvestSupply => "POST_HARVEST_SUPPLY"
  | .plant => "PLANT"
  | .other => "OTHER"

/-- From `MaterialQuantityUnits` in material.go: the fixed switch mapping a
material-type code to its allowed units; the fall-through returns `nil`
(empty list). -/
def MaterialQuantityUnits (materialTypeCode : String) : List MaterialQuantityUnit :=
  if materialTypeCode = "SEED" then
    [{ code := "SEEDS", label := "Seeds" },
     { code := "PACKETS", label := "Packets" },
     { code := "GRAM", label := "Gram" },
     { code := "KILOGRAM", label := "Kilogram" }]
  else if materialTypeCode = "AGROCHEMICAL" then
    [{ code := "PACKETS", label := "Packets" },
     { code := "BOTTLES", label := "Bottles" },
     { code := "BAGS", label := "Bags" }]
  else if materialTypeCode = "GROWING_MEDIUM" then
    [{ code := "BAGS", label := "Bags" },
     { code := "CUBIC_METRE", label := "Cubic Metre" }]
  else if materialTypeCode = "LABEL_AND_CROP_SUPPORT" then
    [{ code := "PIECES", label := "Pieces" }]
  else if materialTypeCode = "SEEDING_CONTAINER" then
    [{ code := "PIECES", label := "Pieces" }]
  else if materialTypeCode = "POST_HARVEST_SUPPLY" then
    [{ code := "PIECES", label := "Pieces" }]
  else if materialTypeCode = "PLANT" then
    [{ code := "UNITS", label := "Units" },
     { code := "PACKETS", label := "Packets" }]
  else if materialTypeCode = "OTHER" then
    [{ code := "PIECES", label := "Pieces" }]
  else []

/-- From `GetMaterialQuantityUnit` in material.go: first match of the range
loop over `MaterialQuantityUnits`, zero value `MaterialQuantityUnit{}` when no
entry matches. -/
def GetMaterialQuantityUnit (materialTypeCode code : String) : MaterialQuantityUnit :=
  match (MaterialQuantityUnits materialTypeCode).find? (fun v => v.code == code) with
  | some v => v
  | none => { code := "", label := "" }

/-- From the `MaterialCreated` event: its fields are exactly the ones populated
by `CreateMaterial` in material.go (the struct itself is declared outside
material.go; the field set and order are fixed by the literal in
`CreateMaterial` and the reads in `Transition`). -/
structure MaterialCreated where
  uid : Nat
  name : String
  pricePerUnit : Option Money
  type : Option MaterialType
  quantity : MaterialQuantity
  expirationDate : Option Int
  notes : Option String
  producedBy : Option String
  isExpense : Option Bool
deriving DecidableEq, Repr

/-- From the `MaterialNameChanged` event, fields fixed by the literal in
`ChangeName`. -/
structure MaterialNameChanged where
  uid : Nat
  name : String
deriving DecidableEq, Repr

/-- From the `MaterialPriceChanged` event, fields fixed by the literal in
`ChangePricePerUnit`. -/
structure MaterialPriceChanged where
  uid : Nat
  price : Money
deriving DecidableEq, Repr

/-- From the `MaterialQuantityChanged` event, fields fixed by the literal in
`ChangeQuantityUnit`. -/
structure MaterialQuantityChanged where
  uid : Nat
  quantity : MaterialQuantity
deriving DecidableEq, Repr

/-- The closed union of event values that material.go ever passes to
`TrackChange` / `Transition` (Go types the buffer as `[]interface{}`). -/
inductive Event where
  | created (e : MaterialCreated)
  | nameChanged (e : MaterialNameChanged)
  | priceChanged (e : MaterialPriceChanged)
  | quantityChanged (e : MaterialQuantityChanged)
deriving DecidableEq, Repr

/-- From the `Material` struct in material.go: current projected state plus the
event-sourcing bookkeeping fields `Version` and `UncommittedChanges`. -/
structure Material where
  uid : Nat
  name : String
  pricePerUnit : Option Money
  type : Option MaterialType
  quantity : MaterialQuantity
  expirationDate : Option Int
  notes : Option String
  isExpense : Option Bool
  producedBy : Option String
  version : Nat
  uncommittedChanges : List Event
deriving DecidableEq, Repr

/-- The Go zero value `Material{}`: zero uid, empty name, nil interfaces and
pointers, zero quantity, version 0, nil event buffer. -/
def zeroMaterial : Material where
  uid := 0
  name := ""
  pricePerUnit := none
  type := none
  quantity := { value := 0, unit := { code := "", label := "" } }
  expirationDate := none
  notes := none
  isExpense := none
  producedBy := none
  version := 0
  uncommittedChanges := []

/-- From `Transition` in material.go: the fold. The source's type switch has a
case for `MaterialCreated` only — every other event value falls through the
switch and leaves the state untouched. -/
def Material.transition (state : Material) (event : Event) : Material :=
  match event with
  | .created e =>
    { state with
      uid := e.uid
      name := e.name
      pricePerUnit := e.pricePerUnit
      type := e.type
      quantity := e.quantity
      expirationDate := e.expirationDate
      notes := e.notes
      producedBy := e.producedBy
      isExpense := e.isExpense }
  | _ => state

/-- From `TrackChange` in material.go: append the event to the uncommitted
buffer, then fold it into the state. -/
def Material.trackChange (state : Material) (event : Event) : Material :=
  Material.transition
    { state with uncommittedChanges := state.uncommittedChanges ++ [event] }
    event

/-- From `validateQuantity` in material.go: error on `quantity <= 0`. -/
def validateQuantity (quantity : ℚ) : Option String :=
  if quantity ≤ 0 then some "Cannot be empty" else none

/-- From `validateQuantityUnit` in material.go: resolve the unit for the
material type's code and reject the zero-value unit. -/
def validateQuantityUnit (quantityUnit : String) (materialType : MaterialType) :
    Except String MaterialQuantityUnit :=
  let qu := GetMaterialQuantityUnit materialType.code quantityUnit
  if qu = { code := "", label := "" } then .error "Cannot be empty"
  else .ok qu

/-- From `CreateMaterial` in material.go, on the success path of `uuid.NewV4`
(whose fresh value is the `uid` argument): build the money, require a non-nil
material type, validate quantity and unit, assemble the initial state and track
a `MaterialCreated` event carrying the full snapshot. -/
def createMaterial (uid : Nat) (name price priceUnit : String)
    (materialType : Option MaterialType) (quantity : ℚ) (quantityUnit : String)
    (expirationDate : Option Int) (notes producedBy : Option String)
    (isExpense : Option Bool) : Except String Material :=
  match CreateMoney price priceUnit with
  | .error e => .error e
  | .ok money =>
    match materialType with
    | none => .error "cannot be empty"
    | some mt =>
      match validateQuantity quantity with
      | some e => .error e
      | none =>
        match validateQuantityUnit quantityUnit mt with
        | .error e => .error e
        | .ok qu =>
          let initial : Material :=
            { uid := uid
              name := name
              pricePerUnit := some money
              type := some mt
              quantity := { value := quantity, unit := qu }
              expirationDate := expirationDate
              notes := notes
              producedBy := producedBy
              isExpense := isExpense
              version := 0
              uncommittedChanges := [] }
          .ok (initial.trackChange (.created
            { uid := initial.uid
              name := initial.name
              pricePerUnit := initial.pricePerUnit
              type := initial.type
              quantity := initial.quantity
              expirationDate := initial.expirationDate
              notes := initial.notes
              producedBy := initial.producedBy
              isExpense := initial.isExpense }))

/-- From `ChangeName` in material.go: reject empty, then names of byte length
at most 5 (Go `len` on a string counts bytes), else track a
`MaterialNameChanged` event. -/
def Material.changeName (m : Material) (name : String) : Material × Option String :=
  if name = "" then (m, some "cannot be empty")
  else if name.utf8ByteSize ≤ 5 then (m, some "too few characters")
  else (m.trackChange (.nameChanged { uid := m.uid, name := name }), none)

/-- From `ChangePricePerUnit` in material.go: build the money (propagating its
error), else track a `MaterialPriceChanged` event. -/
def Material.changePricePerUnit (m : Material) (price priceUnit : String) :
    Material × Option String :=
  match CreateMoney price priceUnit with
  | .error e => (m, some e)
  | .ok money => (m.trackChange (.priceChanged { uid := m.uid, price := money }), none)

/-- From `ChangeQuantityUnit` in material.go: validate the quantity and the
unit (propagating errors), else track a `MaterialQuantityChanged` event. -/
def Material.changeQuantityUnit (m : Material) (quantity : ℚ) (quantityUnit : String)
    (materialType : MaterialType) : Material × Option String :=
  match validateQuantity quantity with
  | some e => (m, some e)
  | none =>
    match validateQuantityUnit quantityUnit materialType with
    | .error e => (m, some e)
    | .ok qu =>
      (m.trackChange (.quantityChanged
        { uid := m.uid, quantity := { value := quantity, unit := qu } }), none)

/-- A post-creation command on the aggregate, for quantifying over command
sequences. -/
inductive Command where
  | changeName (name : String)
  | changePricePerUnit (price priceUnit : String)
  | changeQuantityUnit (quantity : ℚ) (quantityUnit : String) (materialType : MaterialType)

/-- Dispatch one command to the corresponding method. -/
def runCommand (m : Material) : Command → Material × Option String
  | .changeName n => m.changeName n
  | .changePricePerUnit p pu => m.changePricePerUnit p pu
  | .changeQuantityUnit q qu mt => m.changeQuantityUnit q qu mt

/-- Run a sequence of commands, stopping at the first error. -/
def runCommands (m : Material) : List Command → Material × Option String
  | [] => (m, none)
  | c :: cs =>
    match runCommand m c with
    | (m1, none) => runCommands m1 cs
    | (m1, some e) => (m1, some e)

/-- Fold an event sequence from the zero state via `Transition` (event replay). -/
def replay (events : List Event) : Material :=
  events.foldl Material.transition zeroMaterial

/-- The nine projected-state fields of the aggregate agree (the bookkeeping
fields `version` and `uncommittedChanges` are not compared). -/
def Material.sameFields (a b : Material) : Prop :=
  a.uid = b.uid ∧ a.name = b.name ∧ a.pricePerUnit = b.pricePerUnit ∧
  a.type = b.type ∧ a.quantity = b.quantity ∧ a.expirationDate = b.expirationDate ∧
  a.notes = b.notes ∧ a.isExpense = b.isExpense ∧ a.producedBy = b.producedBy

instance (a b : Material) : Decidable (a.sameFields b) := by
  unfold Material.sameFields
  infer_instance

/-- Concrete creation call from the spec's end-to-end example (uid 1 stands for
the generated UUID). -/
def sampleCreate : Except String Material :=
  createMaterial 1 "Tomato Seeds" "5.00" "EUR" (some MaterialType.seed) 100 "SEEDS"
    none none none none

/-- The aggregate produced by `sampleCreate` (it succeeds, so the fallback arm
is never taken). -/
def sampleMaterial : Material :=
  match sampleCreate with
  | .ok m => m
  | .error _ => zeroMaterial

/-- `sampleMaterial` after the spec's follow-up `ChangeQuantityUnit(50,
"KILOGRAM", SeedType)` call: resulting state and returned error. -/
def sampleStep2 : Material × Option String :=
  sampleMaterial.changeQuantityUnit 50 "KILOGRAM" MaterialType.seed

/-- `sampleMaterial` after a successful rename, used to instantiate the replay
property on a concrete command sequence. -/
def sampleRenamed : Material :=
  (runCommands sampleMaterial [Command.changeName "Premium Seeds"]).1

/- ## Helper lemmas -/

/-- The fold never touches the uncommitted-changes buffer. -/
theorem transition_uncommittedChanges (s : Material) (e : Event) :
    (s.transition e).uncommittedChanges = s.uncommittedChanges := by
  cases e <;> rfl

/-- `TrackChange` appends exactly the tracked event to the buffer. -/
theorem trackChange_uncommittedChanges (s : Material) (e : Event) :
    (s.trackChange e).uncommittedChanges = s.uncommittedChanges ++ [e] := by
  unfold Material.trackChange
  rw [transition_uncommittedChanges]

theorem sameFields_trans {a b c : Material} (h1 : a.sameFields b) (h2 : b.sameFields c) :
    a.sameFields c := by
  obtain ⟨u1, n1, p1, t1, q1, e1, o1, i1, r1⟩ := h1
  obtain ⟨u2, n2, p2, t2, q2, e2, o2, i2, r2⟩ := h2
  exact ⟨u1.trans u2, n1.trans n2, p1.trans p2, t1.trans t2, q1.trans q2,
    e1.trans e2, o1.trans o2, i1.trans i2, r1.trans r2⟩

/-- Replacing only the buffer leaves the nine projected fields intact. -/
theorem sameFields_setBuffer (a : Material) (l : List Event) :
    a.sameFields { a with uncommittedChanges := l } := by
  unfold Material.sameFields
  exact ⟨rfl, rfl, rfl, rfl, rfl, rfl, rfl, rfl, rfl⟩

/-- After a `MaterialCreated` event the nine projected fields come entirely
from the event, whatever the pre-states were. -/
theorem sameFields_created (s t : Material) (ev : MaterialCreated) :
    (s.transition (.created ev)).sameFields (t.transition (.created ev)) := by
  unfold Material.sameFields
  exact ⟨rfl, rfl, rfl, rfl, rfl, rfl, rfl, rfl, rfl⟩

/-- The fold is a congruence for field agreement. -/
theorem sameFields_transition {a b : Material} (h : a.sameFields b) (e : Event) :
    (a.transition e).sameFields (b.transition e) := by
  cases e with
  | created ev => exact sameFields_created a b ev
  | nameChanged ev => exact h
  | priceChanged ev => exact h
  | quantityChanged ev => exact h

/- ## Claim theorems -/

/-- C1: contrary to the claim, the fold does not update the corresponding
field on `MaterialNameChanged`, `MaterialPriceChanged` or
`MaterialQuantityChanged`: the source's type switch handles only
`MaterialCreated`, so all three change events leave the state exactly as it
was. -/
theorem transition_ignores_change_events (s : Material) (u : Nat) (n : String)
    (p : Money) (q : MaterialQuantity) :
    s.transition (.nameChanged { uid := u, name := n }) = s ∧
    s.transition (.priceChanged { uid := u, price := p }) = s ∧
    s.transition (.quantityChanged { uid := u, quantity := q }) = s :=
  ⟨rfl, rfl, rfl⟩

/-- C6: `ChangeName` rejects the empty name with the invalid-input error,
rejects non-empty names of (byte) length at most 5 with the too-short error,
and for any name of length at least 6 succeeds, tracking exactly one
`MaterialNameChanged` event carrying the aggregate's uid and the new name. -/
theorem changeName_cases (m : Material) (name : String) :
    (name = "" → m.changeName name = (m, some "cannot be empty")) ∧
    (name ≠ "" → name.utf8ByteSize ≤ 5 →
      m.changeName name = (m, some "too few characters")) ∧
    (6 ≤ name.utf8ByteSize →
      m.changeName name =
        (m.trackChange (.nameChanged { uid := m.uid, name := name }), none) ∧
      (m.changeName name).1.uncommittedChanges =
        m.uncommittedChanges ++ [.nameChanged { uid := m.uid, name := name }]) := by
  refine ⟨?_, ?_, ?_⟩
  · intro h1
    simp [Material.changeName, h1]
  · intro h1 h2
    simp [Material.changeName, h1, h2]
  · intro h6
    have h1 : name ≠ "" := by
      intro he
      rw [he] at h6
      exact absurd h6 (by decide)
    have h2 : ¬ name.utf8ByteSize ≤ 5 := by omega
    constructor
    · simp [Material.changeName, h1, h2]
    · simp [Material.changeName, h1, h2, trackChange_uncommittedChanges]

/-- C6 witness: the spec's three boundary examples. -/
theorem changeName_cases_witness :
    zeroMaterial.changeName "" = (zeroMaterial, some "cannot be empty") ∧
    zeroMaterial.changeName "abcde" = (zeroMaterial, some "too few characters") ∧
    zeroMaterial.changeName "abcdef" =
      (zeroMaterial.trackChange (.nameChanged { uid := 0, name := "abcdef" }), none) :=
  ⟨(changeName_cases zeroMaterial "").1 rfl,
   (changeName_cases zeroMaterial "abcde").2.1 (by decide) (by decide),
   ((changeName_cases zeroMaterial "abcdef").2.2 (by decide)).1⟩

/-- C7: `CreateMoney` rejects an empty amount; rejects, for a non-empty
amount, every currency code other than the one known variant `"EUR"`; and on
`"EUR"` with a non-empty amount returns the money whose amount is the given
string, whose symbol is `"€"` and whose code is `"EUR"`. -/
theorem createMoney_cases (price priceUnit : String) :
    (price = "" → CreateMoney price priceUnit = .error "price cannot be empty") ∧
    (price ≠ "" → priceUnit ≠ "EUR" → CreateMoney price priceUnit = .error "money not found") ∧
    (price ≠ "" →
      CreateMoney price "EUR" = .ok (Money.eur price) ∧
      (Money.eur price).amount = price ∧
      (Money.eur price).symbol = "€" ∧
      (Money.eur price).code = "EUR") := by
  refine ⟨?_, ?_, ?_⟩
  · intro h1
    simp [CreateMoney, h1]
  · intro h1 h2
    simp [CreateMoney, h1, h2]
  · intro h1
    exact ⟨by simp [CreateMoney, h1], rfl, rfl, rfl⟩

/-- C7 witness: the spec's three examples. -/
theorem createMoney_cases_witness :
    CreateMoney "" "EUR" = .error "price cannot be empty" ∧
    CreateMoney "10.50" "XYZ" = .error "money not found" ∧
    CreateMoney "10.50" "EUR" = .ok (Money.eur "10.50") ∧
    (Money.eur "10.50").amount = "10.50" ∧
    (Money.eur "10.50").symbol = "€" :=
  ⟨(createMoney_cases "" "EUR").1 rfl,
   (createMoney_cases "10.50" "XYZ").2.1 (by decide) (by decide),
   ((createMoney_cases "10.50" "EUR").2.2 (by decide)).1,
   ((createMoney_cases "10.50" "EUR").2.2 (by decide)).2.1,
   ((createMoney_cases "10.50" "EUR").2.2 (by decide)).2.2.1⟩

/-- C8: the unit lookup never fails: whenever no entry of the allowed-units
table for the given type code carries the requested unit code (including when
the type code is unrecognized and the table is empty), it returns the
zero-value unit; on the spec's examples, `("SEED", "BAGS")` yields the
zero-value unit and `("SEED", "GRAM")` yields `{GRAM, "Gram"}`. -/
theorem getMaterialQuantityUnit_cases (tc c : String) :
    ((∀ u ∈ MaterialQuantityUnits tc, u.code ≠ c) →
      GetMaterialQuantityUnit tc c = { code := "", label := "" }) ∧
    GetMaterialQuantityUnit "SEED" "BAGS" = { code := "", label := "" } ∧
    GetMaterialQuantityUnit "SEED" "GRAM" = { code := "GRAM", label := "Gram" } := by
  refine ⟨?_, by decide, by decide⟩
  intro h
  unfold GetMaterialQuantityUnit
  have hn : (MaterialQuantityUnits tc).find? (fun v => v.code == c) = none := by
    rw [List.find?_eq_none]
    intro u hu
    simpa using h u hu
  rw [hn]

/-- C8 witness: the no-match hypothesis discharged at the spec's `("SEED",
"BAGS")` example. -/
theorem getMaterialQuantityUnit_cases_witness :
    (∀ u ∈ MaterialQuantityUnits "SEED", u.code ≠ "BAGS") ∧
    GetMaterialQuantityUnit "SEED" "BAGS" = { code := "", label := "" } :=
  ⟨by decide, (getMaterialQuantityUnit_cases "SEED" "BAGS").1 (by decide)⟩

/-- C9: quantity validation fails exactly on non-positive values, and in
particular fails at 0 and -1 and succeeds at 0.01. -/
theorem validateQuantity_cases (q : ℚ) :
    ((∃ e, validateQuantity q = some e) ↔ q ≤ 0) ∧
    validateQuantity 0 = some "Cannot be empty" ∧
    validateQuantity (-1) = some "Cannot be empty" ∧
    validateQuantity 0.01 = none := by
  refine ⟨?_, by norm_num [validateQuantity], by norm_num [validateQuantity],
    by norm_num [validateQuantity]⟩
  unfold validateQuantity
  constructor
  · intro ⟨e, he⟩
    by_contra hpos
    simp [hpos] at he
  · intro hle
    exact ⟨"Cannot be empty", by simp [hle]⟩

/-- C4: every command either fails, returning the receiver with its state
fields and uncommitted-changes buffer exactly as they were, or succeeds,
appending exactly one event to the buffer and folding that same event into the
state via `TrackChange`; no event is ever emitted on failure. -/
theorem command_atomic (m : Material) (c : Command) :
    (∃ e, runCommand m c = (m, some e)) ∨
    (∃ ev, runCommand m c = (m.trackChange ev, none) ∧
      (m.trackChange ev).uncommittedChanges = m.uncommittedChanges ++ [ev]) := by
  cases c with
  | changeName n =>
    by_cases h1 : n = ""
    · exact Or.inl ⟨"cannot be empty", by simp [runCommand, Material.changeName, h1]⟩
    · by_cases h2 : n.utf8ByteSize ≤ 5
      · exact Or.inl ⟨"too few characters", by simp [runCommand, Material.changeName, h1, h2]⟩
      · exact Or.inr ⟨.nameChanged { uid := m.uid, name := n },
          by simp [runCommand, Material.changeName, h1, h2],
          trackChange_uncommittedChanges m _⟩
  | changePricePerUnit p pu =>
    cases hm : CreateMoney p pu with
    | error e =>
      exact Or.inl ⟨e, by simp [runCommand, Material.changePricePerUnit, hm]⟩
    | ok money =>
      exact Or.inr ⟨.priceChanged { uid := m.uid, price := money },
        by simp [runCommand, Material.changePricePerUnit, hm],
        trackChange_uncommittedChanges m _⟩
  | changeQuantityUnit q qu mt =>
    cases hv : validateQuantity q with
    | some e =>
      exact Or.inl ⟨e, by simp [runCommand, Material.changeQuantityUnit, hv]⟩
    | none =>
      cases hu : validateQuantityUnit qu mt with
      | error e =>
        exact Or.inl ⟨e, by simp [runCommand, Material.changeQuantityUnit, hv, hu]⟩
      | ok quV =>
        exact Or.inr ⟨.quantityChanged
            { uid := m.uid, quantity := { value := q, unit := quV } },
          by simp [runCommand, Material.changeQuantityUnit, hv, hu],
          trackChange_uncommittedChanges m _⟩

/-- C5: whenever creation succeeds, the buffer holds exactly one
`MaterialCreated` event and every projected field of the returned aggregate
equals the corresponding field of that event. -/
theorem create_state_matches_event (uid : Nat) (name price priceUnit : String)
    (mt : Option MaterialType) (q : ℚ) (qu : String) (ed : Option Int)
    (notes pb : Option String) (ie : Option Bool) (m : Material)
    (h : createMaterial uid name price priceUnit mt q qu ed notes pb ie = .ok m) :
    ∃ e : MaterialCreated, m.uncommittedChanges = [Event.created e] ∧
      m.uid = e.uid ∧ m.name = e.name ∧ m.pricePerUnit = e.pricePerUnit ∧
      m.type = e.type ∧ m.quantity = e.quantity ∧
      m.expirationDate = e.expirationDate ∧ m.notes = e.notes ∧
      m.producedBy = e.producedBy ∧ m.isExpense = e.isExpense := by
  unfold createMaterial at h
  split at h
  · exact absurd h (by simp)
  · split at h
    · exact absurd h (by simp)
    · split at h
      · exact absurd h (by simp)
      · split at h
        · exact absurd h (by simp)
        · injection h with h
          subst h
          exact ⟨_, rfl, rfl, rfl, rfl, rfl, rfl, rfl, rfl, rfl, rfl⟩

/-- C5 witness: instantiated at the spec's end-to-end creation example. -/
theorem create_state_matches_event_witness :
    createMaterial 1 "Tomato Seeds" "5.00" "EUR" (some MaterialType.seed) 100 "SEEDS"
      none none none none = .ok sampleMaterial ∧
    (∃ e : MaterialCreated, sampleMaterial.uncommittedChanges = [Event.created e] ∧
      sampleMaterial.uid = e.uid ∧ sampleMaterial.name = e.name ∧
      sampleMaterial.pricePerUnit = e.pricePerUnit ∧
      sampleMaterial.type = e.type ∧ sampleMaterial.quantity = e.quantity ∧
      sampleMaterial.expirationDate = e.expirationDate ∧
      sampleMaterial.notes = e.notes ∧
      sampleMaterial.producedBy = e.producedBy ∧
      sampleMaterial.isExpense = e.isExpense) :=
  ⟨rfl, create_state_matches_event 1 "Tomato Seeds" "5.00" "EUR"
    (some MaterialType.seed) 100 "SEEDS" none none none none sampleMaterial rfl⟩

/-- C2: the spec's end-to-end example, evaluated on the code. Creation
succeeds with exactly one uncommitted event and version 0; the follow-up
`ChangeQuantityUnit(50, "KILOGRAM", SeedType)` succeeds and leaves two events
recorded with name and price untouched — but, contrary to the claim, the
quantity field is also untouched: it still holds `{100, SEEDS}` because the
fold ignores `MaterialQuantityChanged`. -/
theorem create_then_changeQuantityUnit_eval :
    sampleCreate = .ok sampleMaterial ∧
    sampleMaterial.uncommittedChanges.length = 1 ∧
    sampleMaterial.version = 0 ∧
    sampleStep2.2 = none ∧
    sampleStep2.1.uncommittedChanges.length = 2 ∧
    sampleStep2.1.name = "Tomato Seeds" ∧
    sampleStep2.1.pricePerUnit = some (Money.eur "5.00") ∧
    sampleStep2.1.quantity = { value := 100, unit := { code := "SEEDS", label := "Seeds" } } ∧
    sampleStep2.1.quantity.unit.code ≠ "KILOGRAM" :=
  ⟨rfl, rfl, rfl, rfl, rfl, rfl, rfl, rfl, by decide⟩

/-- C10: after the successful `ChangeQuantityUnit(50, "KILOGRAM", SeedType)`
call, the emitted event does carry the resolved allowed unit whose code equals
the argument, but — contrary to the claim — the unit stored in the aggregate's
quantity is not that unit: the fold ignores `MaterialQuantityChanged`, so the
stored unit is still the creation-time `SEEDS` unit. -/
theorem changeQuantityUnit_stored_unit_eval :
    validateQuantityUnit "KILOGRAM" MaterialType.seed =
      .ok { code := "KILOGRAM", label := "Kilogram" } ∧
    ({ code := "KILOGRAM", label := "Kilogram" } : MaterialQuantityUnit) ∈
      MaterialQuantityUnits MaterialType.seed.code ∧
    sampleStep2.1.uncommittedChanges.getLast? =
      some (Event.quantityChanged
        { uid := 1,
          quantity := { value := 50, unit := { code := "KILOGRAM", label := "Kilogram" } } }) ∧
    sampleStep2.1.quantity.unit = { code := "SEEDS", label := "Seeds" } ∧
    sampleStep2.1.quantity.unit.code ≠ "KILOGRAM" := by
  refine ⟨rfl, by decide, by decide, rfl, by decide⟩

/-- Replaying a buffer extended by one event is one fold step on the replay of
the original buffer. -/
theorem replay_append_one (events : List Event) (e : Event) :
    replay (events ++ [e]) = (replay events).transition e := by
  unfold replay
  rw [List.foldl_append]
  rfl

/-- `TrackChange` preserves the replay invariant: if the replay of the buffer
agrees with the state on the projected fields, it still does after tracking
one more event. -/
theorem replayInv_trackChange {m : Material} (e : Event)
    (h : (replay m.uncommittedChanges).sameFields m) :
    (replay (m.trackChange e).uncommittedChanges).sameFields (m.trackChange e) := by
  rw [trackChange_uncommittedChanges, replay_append_one]
  exact sameFields_transition
    (sameFields_trans h (sameFields_setBuffer m (m.uncommittedChanges ++ [e]))) e

/-- A successful creation establishes the replay invariant. -/
theorem replayInv_create {uid : Nat} {name price priceUnit : String}
    {mt : Option MaterialType} {q : ℚ} {qu : String} {ed : Option Int}
    {notes pb : Option String} {ie : Option Bool} {m : Material}
    (h : createMaterial uid name price priceUnit mt q qu ed notes pb ie = .ok m) :
    (replay m.uncommittedChanges).sameFields m := by
  unfold createMaterial at h
  split at h
  · exact absurd h (by simp)
  · split at h
    · exact absurd h (by simp)
    · split at h
      · exact absurd h (by simp)
      · split at h
        · exact absurd h (by simp)
        · injection h with h
          subst h
          exact sameFields_created zeroMaterial _ _

/-- A successful command preserves the replay invariant. -/
theorem replayInv_runCommand {m m1 : Material} {c : Command}
    (h : (replay m.uncommittedChanges).sameFields m)
    (hr : runCommand m c = (m1, none)) :
    (replay m1.uncommittedChanges).sameFields m1 := by
  rcases command_atomic m c with ⟨e, he⟩ | ⟨ev, hev, _⟩
  · rw [he] at hr
    have : (some e : Option String) = none := congrArg Prod.snd hr
    exact absurd this (by simp)
  · rw [hev] at hr
    have hm1 : m1 = m.trackChange ev := by
      have := congrArg Prod.fst hr
      simpa using this.symm
    subst hm1
    exact replayInv_trackChange ev h

/-- A successful command sequence preserves the replay invariant. -/
theorem replayInv_runCommands {cs : List Command} :
    ∀ {m m1 : Material}, (replay m.uncommittedChanges).sameFields m →
      runCommands m cs = (m1, none) →
      (replay m1.uncommittedChanges).sameFields m1 := by
  induction cs with
  | nil =>
    intro m m1 h hr
    unfold runCommands at hr
    have hm : m = m1 := congrArg Prod.fst hr
    subst hm
    exact h
  | cons c cs ih =>
    intro m m1 h hr
    unfold runCommands at hr
    split at hr
    · rename_i m2 heq
      exact ih (replayInv_runCommand h heq) hr
    · rename_i m2 e heq
      have : (some e : Option String) = none := congrArg Prod.snd hr
      exact absurd this (by simp)

/-- C3: for every successful creation followed by any sequence of successful
commands, folding the recorded event sequence from the zero state via the fold
reproduces exactly the projected field values (uid, name, pricePerUnit, type,
quantity, expirationDate, notes, isExpense, producedBy) of the state the
commands produced directly. -/
theorem replay_equivalence (uid : Nat) (name price priceUnit : String)
    (mt : Option MaterialType) (q : ℚ) (qu : String) (ed : Option Int)
    (notes pb : Option String) (ie : Option Bool) (cmds : List Command)
    (m0 m : Material)
    (hc : createMaterial uid name price priceUnit mt q qu ed notes pb ie = .ok m0)
    (hr : runCommands m0 cmds = (m, none)) :
    (replay m.uncommittedChanges).sameFields m :=
  replayInv_runCommands (replayInv_create hc) hr

/-- C3 witness: the replay property instantiated on the spec's creation
example followed by one successful rename command. -/
theorem replay_equivalence_witness :
    createMaterial 1 "Tomato Seeds" "5.00" "EUR" (some MaterialType.seed) 100 "SEEDS"
      none none none none = .ok sampleMaterial ∧
    runCommands sampleMaterial [Command.changeName "Premium Seeds"] = (sampleRenamed, none) ∧
    (replay sampleRenamed.uncommittedChanges).sameFields sampleRenamed :=
  ⟨rfl, rfl,
    replay_equivalence 1 "Tomato Seeds" "5.00" "EUR" (some MaterialType.seed) 100 "SEEDS"
      none none none none [Command.changeName "Premium Seeds"] sampleMaterial
      sampleRenamed rfl rfl⟩

end Tania
